import Mathlib

/-!
Shallow embedding of the realtime messaging engine of the chat server
(`app/websocket/handler.py`, `app/websocket/manager.py`,
`app/cache/websockets.py`, `app/services/messaging.py`,
`app/controllers/websocket.py`).

Identifiers are strings (UUIDs or usernames); sockets are abstracted as
naturals; Redis and Postgres calls become explicit state passing; the
success of a socket write is an oracle `ok : SocketId → Bool`; the
success of a database insert is a boolean flag.  Frames written to the
sender socket, rows inserted into the message store, and pointers pushed
onto offline queues are recorded in explicit outcome structures.
-/

namespace ChatServer

abbrev UserId := String
abbrev MsgId := String
abbrev SocketId := Nat

/-- Python truthiness of an optional string field read with `data.get`:
`None` and the empty string are falsy. -/
def falsy : Option String → Bool
  | none => true
  | some s => decide (s = "")

/-! ## Offline queue (`app/cache/websockets.py`)

The Redis list `offline_queue:{user}` is modelled as a Lean list whose
head is the left end of the Redis list. -/

/-- One queued pointer: the JSON payload
`{"message_id": ..., "type": ..., "group_id"?: ...}` built by
`WebSocketCacheService.queue_offline_message`. -/
structure Pointer where
  message_id : MsgId
  kind : String
  group_id : Option String
  deriving DecidableEq, Repr

/-- The per-user Redis list; list head = left end of the Redis list. -/
abbrev OfflineQueue := List Pointer

/-- `WebSocketCacheService.queue_offline_message`: builds the payload and
LPUSHes it, i.e. prepends at the head. -/
def queue_offline_message (q : OfflineQueue) (message_id : MsgId)
    (message_type : String) (group_id : Option String) : OfflineQueue :=
  { message_id := message_id, kind := message_type, group_id := group_id } :: q

/-- `WebSocketCacheService.get_offline_queue`: `LRANGE key 0 -1` returns
the whole list from the left end, i.e. the stored list as-is. -/
def get_offline_queue (q : OfflineQueue) : List Pointer := q

/-- `WebSocketCacheService.get_online_users_from_list`: partitions ids
into (online, offline) preserving input order, by asking presence for
each id. -/
def get_online_users_from_list (presence : UserId → Bool)
    (user_ids : List UserId) : List UserId × List UserId :=
  user_ids.foldl
    (fun acc u => if presence u then (acc.1 ++ [u], acc.2) else (acc.1, acc.2 ++ [u]))
    ([], [])

/-! ## Stored messages and frames -/

/-- A row of the `messages` table as returned by
`MessageService.get_message` (timestamps as naturals). -/
structure StoredDirect where
  message_id : MsgId
  sender_id : UserId
  recipient_id : UserId
  content : String
  message_type : String
  created_at : Nat
  delivered_at : Option Nat
  read_at : Option Nat
  deriving DecidableEq, Repr

/-- A row of the `group_messages` table as returned by
`GroupMessageService.get_group_message`. -/
structure StoredGroup where
  message_id : MsgId
  group_id : String
  sender_id : UserId
  content : String
  message_type : String
  created_at : Nat
  deriving DecidableEq, Repr

/-- A message resolved by the offline flush, after the handler has
set its `"type"` discriminator to `"direct"` or `"group"`. -/
inductive ResolvedMsg where
  | direct (m : StoredDirect)
  | group (m : StoredGroup)
  deriving DecidableEq, Repr

def ResolvedMsg.message_id : ResolvedMsg → MsgId
  | .direct m => m.message_id
  | .group m => m.message_id

def ResolvedMsg.isDirect : ResolvedMsg → Bool
  | .direct _ => true
  | .group _ => false

/-- Server → client frames built by `WebSocketHandler`. -/
inductive Frame where
  | errorFrame (code message : String)
  | ack (message_id : String) (delivered queued : Bool) (delivered_count : Option Nat)
  | msgNew (message_id sender_id : String) (sender_username : Option String)
      (content message_type created_at : String)
  | groupNew (message_id group_id sender_id content message_type created_at : String)
  | offlineBatch (messages : List ResolvedMsg) (count : Nat)
  | typingFrame (user_id : Option String) (is_typing : Bool) (group_id : Option String)
  | readReceipt (message_id reader_id : String)
  | pong
  deriving DecidableEq, Repr

/-! ## Connection registry (`app/websocket/manager.py`)

`WebSocketManager.active_connections : Dict[str, Set[WebSocket]]` with
the key removed when its set empties is modelled as a total function to
socket lists with `[]` meaning "key absent"; `_ws_to_user` is the
reverse map. -/

def MAX_CONNECTIONS_PER_USER : Nat := 5

structure Registry where
  active : UserId → List SocketId
  owner : SocketId → Option UserId

def Registry.empty : Registry :=
  { active := fun _ => [], owner := fun _ => none }

inductive AttachResult where
  | ok
  | refused (reason : String)
  deriving DecidableEq, Repr

/-- Adding a socket to the user entry (set semantics: no duplicates)
and recording the reverse map, as in the body of
`WebSocketManager.connection` after the cap check passes. -/
def Registry.addSocket (r : Registry) (u : UserId) (s : SocketId) : Registry :=
  { active := fun v =>
      if v = u then (if s ∈ r.active u then r.active u else s :: r.active u)
      else r.active v
    owner := fun t => if t = s then some u else r.owner t }

/-- The attach step of `WebSocketManager.connection`: if the user already
holds `MAX_CONNECTIONS_PER_USER` sockets the new socket is closed with
reason "Too many connections" and the registry is untouched; otherwise
both maps are updated. -/
def Registry.attach (r : Registry) (u : UserId) (s : SocketId) :
    AttachResult × Registry :=
  if MAX_CONNECTIONS_PER_USER ≤ (r.active u).length then
    (.refused "Too many connections", r)
  else
    (.ok, r.addSocket u s)

/-- `WebSocketManager._disconnect`: drop the socket from the forward map
(deleting the entry when it empties is the `[]` value) and from the
reverse map. -/
def Registry.detach (r : Registry) (u : UserId) (s : SocketId) : Registry :=
  { active := fun v => if v = u then (r.active u).erase s else r.active v
    owner := fun t => if t = s then none else r.owner t }

/-- `WebSocketManager.is_user_online_local`. -/
def Registry.localOnline (r : Registry) (u : UserId) : Bool :=
  !(r.active u).isEmpty

/-- `WebSocketManager.send_to_user`: snapshot of the socket set, best
effort write to each socket (success given by the oracle `ok`), failed
sockets are detached; returns whether at least one write succeeded,
together with the cleaned-up registry.  The frame argument does not
influence the result (it is only serialized onto the wire). -/
def Registry.send_to_user (r : Registry) (ok : SocketId → Bool)
    (u : UserId) (_m : Frame) : Bool × Registry :=
  let conns := r.active u
  if conns.isEmpty then (false, r)
  else
    let disconnected := conns.filter fun s => !ok s
    let rCleaned := disconnected.foldl (fun acc s => acc.detach u s) r
    (disconnected.length < conns.length, rCleaned)

/-- `WebSocketManager.broadcast_to_group`: walk the member list in
order, skip the excluded sender, live-send to locally online members,
and classify everyone else as offline; returns
`((delivered_to, offline_users), registry)`. -/
def Registry.broadcast_to_group (r : Registry) (ok : SocketId → Bool)
    (member_ids : List UserId) (m : Frame) (exclude_user : Option UserId) :
    (List UserId × List UserId) × Registry :=
  match member_ids with
  | [] => (([], []), r)
  | u :: rest =>
    if exclude_user = some u then
      r.broadcast_to_group ok rest m exclude_user
    else if r.localOnline u then
      let sent := (r.send_to_user ok u m).1
      let r1 := (r.send_to_user ok u m).2
      let res := r1.broadcast_to_group ok rest m exclude_user
      if sent then (((u :: res.1.1), res.1.2), res.2)
      else ((res.1.1, u :: res.1.2), res.2)
    else
      let res := r.broadcast_to_group ok rest m exclude_user
      ((res.1.1, u :: res.1.2), res.2)

/-- States of the registry reachable from the empty registry by the two
primitive map mutations of `WebSocketManager` (the cleanup inside
`send_to_user` is a fold of `detach`, hence also covered). -/
inductive Reachable : Registry → Prop where
  | empty : Reachable Registry.empty
  | attach (r : Registry) (u : UserId) (s : SocketId) :
      Reachable r → Reachable (r.attach u s).2
  | detach (r : Registry) (u : UserId) (s : SocketId) :
      Reachable r → Reachable (r.detach u s)

/-! ## Direct send (`WebSocketHandler._handle_direct_message`) -/

/-- Arguments of a `MessageService.save_direct_message` call (the row it
inserts; timestamps kept as ISO strings exactly as passed). -/
structure SaveCall where
  message_id : String
  sender_id : String
  recipient_id : String
  content : String
  message_type : String
  delivered_at : Option String
  deriving DecidableEq, Repr

/-- Observable outcome of one `message.send` frame: frames written back
to the sender socket, the row inserted by the awaited (synchronous)
save if it succeeded, the row handed to the fire-and-forget background
save task, the `queue_offline_message` calls, and the registry after
any send-failure cleanup. -/
structure DirectOutcome where
  toSender : List Frame
  storedRow : Option SaveCall
  savedAsync : Option SaveCall
  queued : List (UserId × Pointer)
  registry : Registry

/-- `WebSocketHandler._handle_direct_message`, with the surrounding
`handle_message` `try/except` folded in: an exception from the awaited
offline-path save (`persistOk = false`, text `eText`) surfaces as an
`INTERNAL_ERROR` frame and aborts the rest of the handler. -/
def handle_direct (sender_id : UserId) (sender_username : Option String)
    (r : Registry) (ok : SocketId → Bool) (presence_online : Bool)
    (persistOk : Bool) (eText : String) (recipient_id : Option String)
    (content message_type message_id timestamp : String) : DirectOutcome :=
  if falsy recipient_id then
    { toSender := [.errorFrame "MISSING_RECIPIENT" "recipient_id is required"]
      storedRow := none, savedAsync := none, queued := [], registry := r }
  else if content = "" then
    { toSender := [.errorFrame "EMPTY_CONTENT" "Message content cannot be empty"]
      storedRow := none, savedAsync := none, queued := [], registry := r }
  else
    let recipient := recipient_id.getD ""
    let outgoing : Frame :=
      .msgNew message_id sender_id sender_username content message_type timestamp
    if presence_online then
      let sent := (r.send_to_user ok recipient outgoing).1
      let r1 := (r.send_to_user ok recipient outgoing).2
      { toSender := [.ack message_id sent false none]
        storedRow := none
        savedAsync := some
          { message_id := message_id, sender_id := sender_id
            recipient_id := recipient, content := content
            message_type := message_type
            delivered_at := if sent then some timestamp else none }
        queued := [], registry := r1 }
    else if persistOk then
      { toSender := [.ack message_id false true none]
        storedRow := some
          { message_id := message_id, sender_id := sender_id
            recipient_id := recipient, content := content
            message_type := message_type, delivered_at := none }
        savedAsync := none
        queued := [(recipient, { message_id := message_id, kind := "direct", group_id := none })]
        registry := r }
    else
      { toSender := [.errorFrame "INTERNAL_ERROR" eText]
        storedRow := none, savedAsync := none, queued := [], registry := r }

/-! ## Group send (`WebSocketHandler._handle_group_message`) -/

/-- Arguments of a `GroupMessageService.save_group_message` call. -/
structure GroupSave where
  message_id : String
  group_id : String
  sender_id : String
  content : String
  message_type : String
  deriving DecidableEq, Repr

structure GroupOutcome where
  toSender : List Frame
  delivered_to : List UserId
  queued : List (UserId × Pointer)
  savedAsync : Option GroupSave
  registry : Registry

/-- `WebSocketHandler._handle_group_message`: validate, partition the
members by presence, broadcast to the online partition (discarding the
second component of the broadcast result, as the source does with
`delivered_to, _ = ...`), queue a group pointer for each member of the
offline partition other than the sender, schedule the background save,
and ack with the count of actual local deliveries (the
`delivered_count` key is present only when the count is nonzero, per
`_send_ack`). -/
def handle_group (sender_id : UserId) (r : Registry) (ok : SocketId → Bool)
    (presence : UserId → Bool) (member_ids : List UserId)
    (group_id : Option String)
    (content message_type message_id timestamp : String) : GroupOutcome :=
  if falsy group_id then
    { toSender := [.errorFrame "MISSING_GROUP" "group_id is required"]
      delivered_to := [], queued := [], savedAsync := none, registry := r }
  else if content = "" then
    { toSender := [.errorFrame "EMPTY_CONTENT" "Message content cannot be empty"]
      delivered_to := [], queued := [], savedAsync := none, registry := r }
  else if sender_id ∉ member_ids then
    { toSender := [.errorFrame "NOT_MEMBER" "You are not a member of this group"]
      delivered_to := [], queued := [], savedAsync := none, registry := r }
  else
    let gid := group_id.getD ""
    let outgoing : Frame :=
      .groupNew message_id gid sender_id content message_type timestamp
    let part := get_online_users_from_list presence member_ids
    let bres := r.broadcast_to_group ok part.1 outgoing (some sender_id)
    let delivered_to := bres.1.1
    { toSender := [.ack message_id (decide (0 < delivered_to.length)) false
        (if delivered_to.length = 0 then none else some delivered_to.length)]
      delivered_to := delivered_to
      queued := (part.2.filter (fun u => u ≠ sender_id)).map
        (fun u => (u, { message_id := message_id, kind := "group", group_id := some gid }))
      savedAsync := some
        { message_id := message_id, group_id := gid, sender_id := sender_id
          content := content, message_type := message_type }
      registry := bres.2 }

/-! ## Typing relay (`WebSocketHandler._handle_typing`) -/

structure TypingOutcome where
  frame : Frame
  targets : List UserId

/-- `WebSocketHandler._handle_typing`: the relayed frame's `user_id`
field is populated from `kwargs.get("username")`; direct typing goes to
the recipient, group typing to the members except the sender, anything
else is dropped. -/
def handle_typing (user_id : UserId) (kwargs_username : Option String)
    (member_lookup : String → List UserId)
    (recipient_id group_id : Option String) (is_typing : Bool) : TypingOutcome :=
  if !falsy recipient_id then
    { frame := .typingFrame kwargs_username is_typing none
      targets := [recipient_id.getD ""] }
  else if !falsy group_id then
    let gid := group_id.getD ""
    { frame := .typingFrame kwargs_username is_typing (some gid)
      targets := (member_lookup gid).filter (fun u => u ≠ user_id) }
  else
    { frame := .typingFrame kwargs_username is_typing none, targets := [] }

/-- The call site in `websocket_endpoint`
(`app/controllers/websocket.py`): `handler.handle_message(user_id,
websocket, raw_message)` passes no keyword arguments, so the handler's
`kwargs` is empty and `kwargs.get("username")` is `None`. -/
def router_handle_typing (auth_username : UserId)
    (member_lookup : String → List UserId)
    (recipient_id group_id : Option String) (is_typing : Bool) : TypingOutcome :=
  handle_typing auth_username none member_lookup recipient_id group_id is_typing

/-! ## Offline flush (`WebSocketHandler.deliver_offline_messages`) -/

/-- Resolving one queued pointer against the stores, as the loop body
does: `"direct"` pointers via `MessageService.get_message`, `"group"`
pointers via `GroupMessageService.get_group_message`, any other kind is
skipped (`continue`), and a miss (`None` row) is skipped too. -/
def resolvePointer (directStore : MsgId → Option StoredDirect)
    (groupStore : MsgId → Option StoredGroup) (p : Pointer) : Option ResolvedMsg :=
  if p.kind = "direct" then (directStore p.message_id).map .direct
  else if p.kind = "group" then (groupStore p.message_id).map .group
  else none

/-- Observable outcome of the flush: frames written on this socket, the
`mark_as_delivered` calls issued, and whether `clear_offline_queue` was
called. -/
structure FlushOutcome where
  frames : List Frame
  markedDelivered : List MsgId
  cleared : Bool
  deriving DecidableEq, Repr

/-- `WebSocketHandler.deliver_offline_messages`: read the whole queue,
resolve each pointer, and only if at least one message resolved: send
one `messages.offline` batch, mark the direct ones delivered, clear the
queue. -/
def deliver_offline_messages (directStore : MsgId → Option StoredDirect)
    (groupStore : MsgId → Option StoredGroup) (queued : OfflineQueue) : FlushOutcome :=
  let messages := (get_offline_queue queued).filterMap (resolvePointer directStore groupStore)
  if messages.isEmpty then
    { frames := [], markedDelivered := [], cleared := false }
  else
    { frames := [.offlineBatch messages messages.length]
      markedDelivered := (messages.filter (fun m => m.isDirect)).map (fun m => m.message_id)
      cleared := true }

/-- Frame order of one session, from `websocket_endpoint`
(`app/controllers/websocket.py`): after the registry attach, the
offline flush runs to completion before the read loop starts, so every
frame the flush emits precedes every frame produced by the loop. -/
def websocket_session_frames (directStore : MsgId → Option StoredDirect)
    (groupStore : MsgId → Option StoredGroup) (queued : OfflineQueue)
    (loop_frames : List Frame) : List Frame :=
  (deliver_offline_messages directStore groupStore queued).frames ++ loop_frames

/-! ## Direct-message lifecycle (`MessageService.mark_as_delivered`,
`MessageService.mark_as_read`) -/

/-- The lifecycle-relevant columns of one `messages` row
(`created_at TIMESTAMPTZ DEFAULT NOW()`, nullable `delivered_at`,
`read_at`). -/
structure MsgLifecycle where
  recipient_id : UserId
  created_at : Nat
  delivered_at : Option Nat
  read_at : Option Nat
  deriving DecidableEq, Repr

/-- `MessageService.mark_as_delivered`:
`UPDATE ... SET delivered_at = NOW() WHERE ... delivered_at IS NULL`. -/
def mark_as_delivered (m : MsgLifecycle) (now : Nat) : MsgLifecycle :=
  if m.delivered_at = none then { m with delivered_at := some now } else m

/-- `MessageService.mark_as_read`:
`UPDATE ... SET read_at = NOW() WHERE ... recipient_id = $2 AND read_at IS NULL`. -/
def mark_as_read (m : MsgLifecycle) (user_id : UserId) (now : Nat) : MsgLifecycle :=
  if m.recipient_id = user_id ∧ m.read_at = none then { m with read_at := some now } else m

/-- The two UPDATE operations the engine applies to a stored row after
insertion, tagged with the wall-clock instant `NOW()` evaluates to. -/
inductive LifeOp where
  | deliver (now : Nat)
  | read (user_id : UserId) (now : Nat)
  deriving DecidableEq, Repr

def LifeOp.time : LifeOp → Nat
  | .deliver now => now
  | .read _ now => now

def applyLifeOp (m : MsgLifecycle) : LifeOp → MsgLifecycle
  | .deliver now => mark_as_delivered m now
  | .read u now => mark_as_read m u now

def applyLifeOps (m : MsgLifecycle) (ops : List LifeOp) : MsgLifecycle :=
  ops.foldl applyLifeOp m

/-! ## Concrete values used by witnesses -/

/-- A sample stored direct-message row. -/
def sampleDirectRow : StoredDirect :=
  { message_id := "m1", sender_id := "A", recipient_id := "B"
    content := "hi", message_type := "text"
    created_at := 0, delivered_at := none, read_at := none }

/-- A content string one character over the documented 10,000-char cap. -/
def longContent : String := String.mk (List.replicate 10001 'a')

/-- A registry in which user `u1` holds five live sockets, built by five
attaches from the empty registry. -/
def reg5 : Registry :=
  (((((Registry.empty.attach "u1" 0).2.attach "u1" 1).2.attach
      "u1" 2).2.attach "u1" 3).2.attach "u1" 4).2

/-! ## Helper lemmas -/

theorem foldl_push_eq {α : Type} (f : α → Pointer) :
    ∀ (items : List α) (q : OfflineQueue),
      items.foldl (fun acc i => f i :: acc) q = (items.map f).reverse ++ q := by
  intro items
  induction items with
  | nil => intro q; rfl
  | cons i rest ih =>
      intro q
      simp only [List.foldl_cons, List.map_cons, List.reverse_cons, List.append_assoc]
      rw [ih (f i :: q)]
      simp

theorem get_online_aux (presence : UserId → Bool) :
    ∀ (ids : List UserId) (acc : List UserId × List UserId),
      ids.foldl
        (fun acc u => if presence u then (acc.1 ++ [u], acc.2) else (acc.1, acc.2 ++ [u]))
        acc =
      (acc.1 ++ ids.filter presence, acc.2 ++ ids.filter fun u => !presence u) := by
  intro ids
  induction ids with
  | nil => intro acc; simp
  | cons u rest ih =>
      intro acc
      by_cases hp : presence u = true
      · simp only [List.foldl_cons, hp, if_pos, List.filter_cons]
        rw [ih (acc.1 ++ [u], acc.2)]
        simp [hp]
      · have hp' : presence u = false := by
          cases hpu : presence u
          · rfl
          · exact absurd hpu hp
        simp only [List.foldl_cons, hp', List.filter_cons]
        rw [if_neg (by simp [hp'])]
        rw [ih (acc.1, acc.2 ++ [u])]
        simp [hp']

theorem get_online_users_from_list_eq (presence : UserId → Bool) (ids : List UserId) :
    get_online_users_from_list presence ids =
      (ids.filter presence, ids.filter fun u => !presence u) := by
  unfold get_online_users_from_list
  rw [get_online_aux presence ids ([], [])]
  simp

theorem length_filter_not_lt_iff (ok : SocketId → Bool) (l : List SocketId) :
    ((l.filter fun s => !ok s).length < l.length) ↔ l.any ok = true := by
  constructor
  · intro h
    rw [List.any_eq_true]
    by_contra hc
    push_neg at hc
    have hall : ∀ s ∈ l, (!ok s) = true := by
      intro s hs
      have := hc s hs
      simp at this
      simp [this]
    have heq : (l.filter fun s => !ok s).length = l.length :=
      List.filter_length_eq_length.mpr hall
    omega
  · intro h
    rw [List.any_eq_true] at h
    obtain ⟨x, hx, hok⟩ := h
    have hle : (l.filter fun s => !ok s).length ≤ l.length := List.length_filter_le _ _
    rcases Nat.lt_or_ge (l.filter fun s => !ok s).length l.length with hlt | hge
    · exact hlt
    · exfalso
      have heq : (l.filter fun s => !ok s).length = l.length := Nat.le_antisymm hle hge
      have := List.filter_length_eq_length.mp heq x hx
      simp [hok] at this

theorem send_to_user_sent (r : Registry) (ok : SocketId → Bool) (u : UserId) (m : Frame) :
    (r.send_to_user ok u m).1 = (r.active u).any ok := by
  unfold Registry.send_to_user
  by_cases he : (r.active u).isEmpty = true
  · have : r.active u = [] := List.isEmpty_iff.mp he
    simp [he, this]
  · simp only [he, Bool.false_eq_true, if_false]
    by_cases hP : ((r.active u).filter fun s => !ok s).length < (r.active u).length
    · rw [decide_eq_true hP, (length_filter_not_lt_iff ok (r.active u)).mp hP]
    · rw [decide_eq_false hP]
      cases hany : (r.active u).any ok
      · rfl
      · exact absurd ((length_filter_not_lt_iff ok (r.active u)).mpr hany) hP

theorem foldl_detach_active (u v : UserId) :
    ∀ (ss : List SocketId) (r : Registry),
      ((ss.foldl (fun acc s => acc.detach u s) r).active v) =
        if v = u then ss.foldl (fun l s => l.erase s) (r.active u) else r.active v := by
  intro ss
  induction ss with
  | nil =>
      intro r
      by_cases hv : v = u <;> simp [hv]
  | cons s rest ih =>
      intro r
      simp only [List.foldl_cons]
      rw [ih (r.detach u s)]
      by_cases hv : v = u <;> simp [hv, Registry.detach]

theorem send_to_user_active_ne (r : Registry) (ok : SocketId → Bool) (u : UserId)
    (m : Frame) (v : UserId) (h : v ≠ u) :
    ((r.send_to_user ok u m).2).active v = r.active v := by
  unfold Registry.send_to_user
  by_cases he : (r.active u).isEmpty = true
  · simp [he]
  · simp only [he, Bool.false_eq_true, if_false]
    rw [foldl_detach_active u v _ r, if_neg h]

theorem broadcast_delivered_eq (ok : SocketId → Bool) (m : Frame) (ex : Option UserId) :
    ∀ (members : List UserId) (r : Registry), members.Nodup →
      ((r.broadcast_to_group ok members m ex).1).1 =
        members.filter (fun u => !(decide (ex = some u)) && (r.active u).any ok) := by
  intro members
  induction members with
  | nil => intro r _; rfl
  | cons u rest ih =>
      intro r hnd
      rw [List.nodup_cons] at hnd
      obtain ⟨hu, hrest⟩ := hnd
      have hih := ih r hrest
      have hactives : ∀ w ∈ rest,
          ((r.send_to_user ok u m).2).active w = r.active w := by
        intro w hw
        exact send_to_user_active_ne r ok u m w (by rintro rfl; exact hu hw)
      have hres : (((r.send_to_user ok u m).2).broadcast_to_group ok rest m ex).1.1 =
          rest.filter (fun w => !(decide (ex = some w)) && (r.active w).any ok) := by
        rw [ih _ hrest]
        exact List.filter_congr (by intro w hw; rw [hactives w hw])
      rw [List.filter_cons]
      by_cases hex : ex = some u
      · have hpred : (!(decide (ex = some u)) && (r.active u).any ok) = false := by
          simp [hex]
        rw [hpred]
        simp only [Registry.broadcast_to_group]
        rw [if_pos hex, if_neg Bool.false_ne_true]
        exact hih
      · by_cases hloc : r.localOnline u = true
        · cases hany : (r.active u).any ok
          · have hsent : (r.send_to_user ok u m).1 = false := by
              rw [send_to_user_sent, hany]
            rw [if_neg (by simp)]
            simp only [Registry.broadcast_to_group]
            rw [if_neg hex, if_pos hloc, hsent, if_neg Bool.false_ne_true]
            exact hres
          · have hsent : (r.send_to_user ok u m).1 = true := by
              rw [send_to_user_sent, hany]
            rw [if_pos (by simp [hex])]
            simp only [Registry.broadcast_to_group]
            rw [if_neg hex, if_pos hloc, hsent, if_pos rfl]
            exact congrArg (fun l => u :: l) hres
        · have hempty : r.active u = [] := by
            apply List.isEmpty_iff.mp
            cases hx : (r.active u).isEmpty
            · exact absurd (by unfold Registry.localOnline; rw [hx]; rfl) hloc
            · rfl
          have hpred : (!(decide (ex = some u)) && (r.active u).any ok) = false := by
            simp [hempty]
          rw [hpred]
          simp only [Registry.broadcast_to_group]
          rw [if_neg hex, if_neg hloc, if_neg Bool.false_ne_true]
          exact hih

theorem registry_cap_of_reachable (r : Registry) (h : Reachable r) :
    ∀ u, (r.active u).length ≤ MAX_CONNECTIONS_PER_USER := by
  induction h with
  | empty =>
      intro u
      simp [Registry.empty, MAX_CONNECTIONS_PER_USER]
  | attach r0 u0 s0 _ ih =>
      intro v
      unfold Registry.attach
      by_cases hc : MAX_CONNECTIONS_PER_USER ≤ (r0.active u0).length
      · rw [if_pos hc]
        exact ih v
      · rw [if_neg hc]
        simp only [Registry.addSocket]
        by_cases hv : v = u0
        · rw [if_pos hv]
          by_cases hs : s0 ∈ r0.active u0
          · rw [if_pos hs]
            exact ih u0
          · rw [if_neg hs]
            have := ih u0
            simp only [List.length_cons]
            omega
        · rw [if_neg hv]
          exact ih v
  | detach r0 u0 s0 _ ih =>
      intro v
      simp only [Registry.detach]
      by_cases hv : v = u0
      · rw [if_pos hv]
        exact Nat.le_trans (List.length_erase_le _ _) (ih u0)
      · rw [if_neg hv]
        exact ih v

theorem reg5_reachable : Reachable reg5 :=
  .attach _ _ _ (.attach _ _ _ (.attach _ _ _ (.attach _ _ _ (.attach _ _ _ .empty))))

/-! ## Claim theorems -/

/-- Claim C2, counterexample: enqueue two pointers in order `m1`, `m2`;
`get_offline_queue` returns them newest first, not oldest first as the
claim states. -/
theorem offline_queue_not_oldest_first :
    get_offline_queue
        (queue_offline_message (queue_offline_message [] "m1" "direct" none) "m2" "direct" none) =
      [{ message_id := "m2", kind := "direct", group_id := none },
       { message_id := "m1", kind := "direct", group_id := none }] ∧
    get_offline_queue
        (queue_offline_message (queue_offline_message [] "m1" "direct" none) "m2" "direct" none) ≠
      [{ message_id := "m1", kind := "direct", group_id := none },
       { message_id := "m2", kind := "direct", group_id := none }] := by
  constructor
  · rfl
  · decide

/-- Claim C2 (amended): `queue_offline_message` LPUSHes and
`get_offline_queue` reads the list left to right, so reading after any
sequence of enqueues returns the pointers newest first — the exact
reverse of enqueue order — consistently; the offline flush therefore
delivers queued messages newest first. -/
theorem offline_queue_newest_first (items : List (MsgId × String × Option String)) :
    get_offline_queue
        (items.foldl (fun q i => queue_offline_message q i.1 i.2.1 i.2.2) []) =
      (items.map (fun i =>
        ({ message_id := i.1, kind := i.2.1, group_id := i.2.2 } : Pointer))).reverse := by
  unfold get_offline_queue
  have h := foldl_push_eq
    (fun i : MsgId × String × Option String =>
      ({ message_id := i.1, kind := i.2.1, group_id := i.2.2 } : Pointer)) items []
  simp only [List.append_nil] at h
  rw [← h]
  rfl

/-- Claim C3: direct send to a presence-negative recipient persists the
row synchronously with no `delivered_at`, queues a
`{message_id, kind: direct}` pointer, and acks
`delivered=false, queued=true`; if the awaited persist fails, the
sender gets an `INTERNAL_ERROR` frame, nothing is stored, and no queue
entry is created. -/
theorem direct_offline_atomic (sender : UserId) (username : Option String)
    (r : Registry) (ok : SocketId → Bool) (eText recipient content mt mid ts : String)
    (hrec : recipient ≠ "") (hc : content ≠ "") :
    handle_direct sender username r ok false true eText (some recipient) content mt mid ts =
      { toSender := [.ack mid false true none]
        storedRow := some
          { message_id := mid, sender_id := sender, recipient_id := recipient
            content := content, message_type := mt, delivered_at := none }
        savedAsync := none
        queued := [(recipient, { message_id := mid, kind := "direct", group_id := none })]
        registry := r } ∧
    handle_direct sender username r ok false false eText (some recipient) content mt mid ts =
      { toSender := [.errorFrame "INTERNAL_ERROR" eText]
        storedRow := none, savedAsync := none, queued := [], registry := r } := by
  constructor <;> simp [handle_direct, falsy, hrec, hc]

/-- Witness for C3 at a concrete input. -/
theorem direct_offline_atomic_witness :
    handle_direct "A" none Registry.empty (fun _ => true) false true "boom"
        (some "B") "hi" "text" "m1" "t0" =
      { toSender := [.ack "m1" false true none]
        storedRow := some
          { message_id := "m1", sender_id := "A", recipient_id := "B"
            content := "hi", message_type := "text", delivered_at := none }
        savedAsync := none
        queued := [("B", { message_id := "m1", kind := "direct", group_id := none })]
        registry := Registry.empty } :=
  (direct_offline_atomic "A" none Registry.empty (fun _ => true) "boom" "B" "hi"
    "text" "m1" "t0" (by decide) (by decide)).1

/-- Claim C10: recipient presence-positive but with zero sockets in
this registry — the handler acks `delivered=false, queued=false`,
creates no queue entry, and persists only via the background task with
`delivered_at` unset. -/
theorem direct_online_no_local_socket (sender : UserId) (username : Option String)
    (r : Registry) (ok : SocketId → Bool) (persistOk : Bool)
    (eText recipient content mt mid ts : String)
    (hrec : recipient ≠ "") (hc : content ≠ "") (hlocal : r.active recipient = []) :
    handle_direct sender username r ok true persistOk eText (some recipient) content mt mid ts =
      { toSender := [.ack mid false false none]
        storedRow := none
        savedAsync := some
          { message_id := mid, sender_id := sender, recipient_id := recipient
            content := content, message_type := mt, delivered_at := none }
        queued := [], registry := r } := by
  simp [handle_direct, falsy, hrec, hc, Registry.send_to_user, hlocal]

/-- Witness for C10 at a concrete input. -/
theorem direct_online_no_local_socket_witness :
    handle_direct "A" none Registry.empty (fun _ => true) true true "e"
        (some "B") "hi" "text" "m1" "t0" =
      { toSender := [.ack "m1" false false none]
        storedRow := none
        savedAsync := some
          { message_id := "m1", sender_id := "A", recipient_id := "B"
            content := "hi", message_type := "text", delivered_at := none }
        queued := [], registry := Registry.empty } :=
  direct_online_no_local_socket "A" none Registry.empty (fun _ => true) true "e"
    "B" "hi" "text" "m1" "t0" (by decide) (by decide) rfl

/-- Claim C9: the typing frame relayed for a direct typing indicator
carries `user_id = None` — the handler reads `kwargs.get("username")`
but the endpoint passes no keyword arguments — so the field identifies
nobody, contradicting the documented `user_id` semantics. -/
theorem typing_frame_user_id_null (u : UserId) (ml : String → List UserId)
    (rid : String) (it : Bool) (h : rid ≠ "") :
    (router_handle_typing u ml (some rid) none it).frame =
      .typingFrame none it none := by
  simp [router_handle_typing, handle_typing, falsy, h]

/-- Witness for C9 at a concrete input. -/
theorem typing_frame_user_id_null_witness :
    (router_handle_typing "A" (fun _ => []) (some "B") none true).frame =
      .typingFrame none true none :=
  typing_frame_user_id_null "A" (fun _ => []) "B" true (by decide)

/-- Claim C8, counterexample: a `message.send` content of 10,001
characters passes validation, is persisted, and is acked — no 10,000
character cap is enforced on the WebSocket path. -/
theorem content_length_unbounded :
    longContent.length = 10001 ∧
    (handle_direct "A" none Registry.empty (fun _ => true) false true "e"
        (some "B") longContent "text" "m1" "t0").storedRow =
      some
        { message_id := "m1", sender_id := "A", recipient_id := "B"
          content := longContent, message_type := "text", delivered_at := none } ∧
    (handle_direct "A" none Registry.empty (fun _ => true) false true "e"
        (some "B") longContent "text" "m1" "t0").toSender =
      [.ack "m1" false true none] := by
  have hlen : longContent.length = 10001 := by
    show (List.replicate 10001 'a').length = 10001
    exact List.length_replicate 10001 'a'
  have hne : longContent ≠ "" := by
    intro h
    rw [h] at hlen
    simp at hlen
  refine ⟨hlen, ?_, ?_⟩ <;> simp [handle_direct, falsy, hne]

/-- Claim C8 (amended): a missing (or empty) `recipient_id` is rejected
with `MISSING_RECIPIENT` and empty content with `EMPTY_CONTENT`, in
both cases with nothing persisted or queued; content that passes those
two checks is accepted and persisted verbatim whatever its length (the
10,000-char cap lives only in the REST `MessageCreate` schema, not on
this path). -/
theorem direct_validation (sender : UserId) (username : Option String)
    (r : Registry) (ok : SocketId → Bool) (presence persistOk : Bool)
    (eText mt mid ts : String) (recipient_id : Option String) (content : String) :
    (falsy recipient_id = true →
      handle_direct sender username r ok presence persistOk eText recipient_id content mt mid ts =
        { toSender := [.errorFrame "MISSING_RECIPIENT" "recipient_id is required"]
          storedRow := none, savedAsync := none, queued := [], registry := r }) ∧
    (falsy recipient_id = false → content = "" →
      handle_direct sender username r ok presence persistOk eText recipient_id content mt mid ts =
        { toSender := [.errorFrame "EMPTY_CONTENT" "Message content cannot be empty"]
          storedRow := none, savedAsync := none, queued := [], registry := r }) ∧
    (∀ recipient : String, recipient ≠ "" → content ≠ "" →
      (handle_direct sender username r ok false true eText (some recipient) content mt mid ts).storedRow =
        some
          { message_id := mid, sender_id := sender, recipient_id := recipient
            content := content, message_type := mt, delivered_at := none }) := by
  refine ⟨?_, ?_, ?_⟩
  · intro hf
    simp [handle_direct, hf]
  · intro hf hc
    simp [handle_direct, hf, hc]
  · intro recipient hrec hc
    simp [handle_direct, falsy, hrec, hc]

/-- Witness for C8 (amended) at a concrete input. -/
theorem direct_validation_witness :
    handle_direct "A" none Registry.empty (fun _ => true) true true "e"
        none "hi" "text" "m1" "t0" =
      { toSender := [.errorFrame "MISSING_RECIPIENT" "recipient_id is required"]
        storedRow := none, savedAsync := none, queued := [], registry := Registry.empty } :=
  (direct_validation "A" none Registry.empty (fun _ => true) true true "e"
    "text" "m1" "t0" none "hi").1 rfl

/-- Claim C4, counterexample: a non-empty offline queue whose single
pointer does not resolve produces no `messages.offline` frame at all
(and the queue is not cleared), contradicting "exactly one frame". -/
theorem flush_all_dangling_no_frame :
    ([({ message_id := "m1", kind := "direct", group_id := none } : Pointer)] ≠
      ([] : List Pointer)) ∧
    deliver_offline_messages (fun _ => none) (fun _ => none)
        [{ message_id := "m1", kind := "direct", group_id := none }] =
      { frames := [], markedDelivered := [], cleared := false } := by
  constructor
  · decide
  · rfl

/-- Claim C4 (amended): the flush sends at most one `messages.offline`
frame, and exactly one iff at least one pointer resolves; the frame
precedes every frame of the read loop, its count is the number of
resolved messages, the resolved direct messages are marked delivered
and the queue is cleared exactly when the frame is sent; a pointer that
does not resolve is skipped without dropping any resolvable entry. -/
theorem flush_batch (ds : MsgId → Option StoredDirect) (gs : MsgId → Option StoredGroup)
    (q : OfflineQueue) (loop_frames : List Frame) :
    (q.filterMap (resolvePointer ds gs) = [] →
      deliver_offline_messages ds gs q =
        { frames := [], markedDelivered := [], cleared := false }) ∧
    (q.filterMap (resolvePointer ds gs) ≠ [] →
      deliver_offline_messages ds gs q =
        { frames := [.offlineBatch (q.filterMap (resolvePointer ds gs))
            (q.filterMap (resolvePointer ds gs)).length]
          markedDelivered :=
            ((q.filterMap (resolvePointer ds gs)).filter (fun m => m.isDirect)).map
              (fun m => m.message_id)
          cleared := true } ∧
      websocket_session_frames ds gs q loop_frames =
        .offlineBatch (q.filterMap (resolvePointer ds gs))
          (q.filterMap (resolvePointer ds gs)).length :: loop_frames) ∧
    (∀ p ∈ q, ∀ mm, resolvePointer ds gs p = some mm →
      mm ∈ q.filterMap (resolvePointer ds gs)) := by
  refine ⟨?_, ?_, ?_⟩
  · intro hnil
    unfold deliver_offline_messages get_offline_queue
    simp [hnil]
  · intro hne
    have hfalse : (q.filterMap (resolvePointer ds gs)).isEmpty = false := by
      cases hx : (q.filterMap (resolvePointer ds gs)).isEmpty
      · rfl
      · exact absurd (List.isEmpty_iff.mp hx) hne
    constructor
    · unfold deliver_offline_messages get_offline_queue
      simp [hfalse]
    · unfold websocket_session_frames deliver_offline_messages get_offline_queue
      simp [hfalse]
  · intro p hp mm hmm
    exact List.mem_filterMap.mpr ⟨p, hp, hmm⟩

/-- Witness for C4 (amended) at a concrete input: one resolvable direct
pointer yields one batch frame of count 1, the direct message marked
delivered, and the queue cleared. -/
theorem flush_batch_witness :
    deliver_offline_messages
        (fun i => if i = "m1" then some sampleDirectRow else none) (fun _ => none)
        [{ message_id := "m1", kind := "direct", group_id := none }] =
      { frames := [.offlineBatch [.direct sampleDirectRow] 1]
        markedDelivered := ["m1"], cleared := true } := by
  have h := ((flush_batch (fun i => if i = "m1" then some sampleDirectRow else none)
    (fun _ => none) [{ message_id := "m1", kind := "direct", group_id := none }] []).2.1
    (by decide)).1
  rw [h]
  decide

/-- Claim C5, counterexample: a stored message read (by its recipient)
at time 1 and only then marked delivered at time 2 ends with
`read_at = 1 < delivered_at = 2`, violating
`delivered_at ≤ read_at`. -/
theorem lifecycle_order_violated :
    applyLifeOps { recipient_id := "B", created_at := 0, delivered_at := none, read_at := none }
        [.read "B" 1, .deliver 2] =
      { recipient_id := "B", created_at := 0, delivered_at := some 2, read_at := some 1 } ∧
    ¬ (2 ≤ 1) := by
  constructor
  · decide
  · decide

/-- Claim C5 (amended): `mark_as_delivered` and `mark_as_read` leave an
already-set field unchanged (each field is set at most once), the
operations never change `created_at`, and any field they do set carries
a time no earlier than `created_at` provided the operations run at or
after creation; the order `delivered_at ≤ read_at` is not guaranteed. -/
theorem lifecycle_set_once (m : MsgLifecycle) (ops : List LifeOp)
    (hts : ∀ op ∈ ops, m.created_at ≤ op.time) :
    (applyLifeOps m ops).created_at = m.created_at ∧
    (∀ t, m.delivered_at = some t → (applyLifeOps m ops).delivered_at = some t) ∧
    (∀ t, m.read_at = some t → (applyLifeOps m ops).read_at = some t) ∧
    (∀ t, (applyLifeOps m ops).delivered_at = some t →
      m.delivered_at = some t ∨ m.created_at ≤ t) ∧
    (∀ t, (applyLifeOps m ops).read_at = some t →
      m.read_at = some t ∨ m.created_at ≤ t) := by
  induction ops generalizing m with
  | nil =>
      refine ⟨rfl, fun t h => h, fun t h => h, fun t h => .inl h, fun t h => .inl h⟩
  | cons op rest ih =>
      have hcreated : (applyLifeOp m op).created_at = m.created_at := by
        cases op <;> simp only [applyLifeOp, mark_as_delivered, mark_as_read] <;>
          split <;> rfl
      have hdel_pres : ∀ t, m.delivered_at = some t →
          (applyLifeOp m op).delivered_at = some t := by
        intro t h
        cases op with
        | deliver now =>
            simp only [applyLifeOp, mark_as_delivered]
            rw [if_neg (by rw [h]; intro hcon; cases hcon)]
            exact h
        | read uid now =>
            simp only [applyLifeOp, mark_as_read]
            split <;> exact h
      have hread_pres : ∀ t, m.read_at = some t →
          (applyLifeOp m op).read_at = some t := by
        intro t h
        cases op with
        | deliver now =>
            simp only [applyLifeOp, mark_as_delivered]
            split <;> exact h
        | read uid now =>
            simp only [applyLifeOp, mark_as_read]
            rw [if_neg (by rintro ⟨h1, h2⟩; rw [h] at h2; cases h2)]
            exact h
      have hdel_new : ∀ t, (applyLifeOp m op).delivered_at = some t →
          m.delivered_at = some t ∨ t = op.time := by
        intro t h
        cases op with
        | deliver now =>
            simp only [applyLifeOp, mark_as_delivered] at h
            by_cases hn : m.delivered_at = none
            · rw [if_pos hn] at h
              simp only [LifeOp.time]
              right
              exact (Option.some.injEq _ _ ▸ h).symm
            · rw [if_neg hn] at h
              exact .inl h
        | read uid now =>
            simp only [applyLifeOp, mark_as_read] at h
            left
            revert h
            split <;> exact fun h => h
      have hread_new : ∀ t, (applyLifeOp m op).read_at = some t →
          m.read_at = some t ∨ t = op.time := by
        intro t h
        cases op with
        | deliver now =>
            simp only [applyLifeOp, mark_as_delivered] at h
            left
            revert h
            split <;> exact fun h => h
        | read uid now =>
            simp only [applyLifeOp, mark_as_read] at h
            by_cases hn : m.recipient_id = uid ∧ m.read_at = none
            · rw [if_pos hn] at h
              simp only [LifeOp.time]
              right
              exact (Option.some.injEq _ _ ▸ h).symm
            · rw [if_neg hn] at h
              exact .inl h
      have hts1 : ∀ op1 ∈ rest, (applyLifeOp m op).created_at ≤ op1.time := by
        intro op1 h1
        rw [hcreated]
        exact hts op1 (List.mem_cons_of_mem _ h1)
      have happ : applyLifeOps m (op :: rest) = applyLifeOps (applyLifeOp m op) rest := rfl
      obtain ⟨ih1, ih2, ih3, ih4, ih5⟩ := ih (applyLifeOp m op) hts1
      refine ⟨?_, ?_, ?_, ?_, ?_⟩
      · rw [happ, ih1, hcreated]
      · intro t h
        rw [happ]
        exact ih2 t (hdel_pres t h)
      · intro t h
        rw [happ]
        exact ih3 t (hread_pres t h)
      · intro t h
        rw [happ] at h
        rcases ih4 t h with h1 | h1
        · rcases hdel_new t h1 with h2 | h2
          · exact .inl h2
          · right
            rw [h2]
            exact hts op (List.mem_cons_self _ _)
        · right
          rw [hcreated] at h1
          exact h1
      · intro t h
        rw [happ] at h
        rcases ih5 t h with h1 | h1
        · rcases hread_new t h1 with h2 | h2
          · exact .inl h2
          · right
            rw [h2]
            exact hts op (List.mem_cons_self _ _)
        · right
          rw [hcreated] at h1
          exact h1

/-- Witness for C5 (amended) at a concrete input. -/
theorem lifecycle_set_once_witness :
    (applyLifeOps { recipient_id := "B", created_at := 0, delivered_at := some 2, read_at := none }
        [.deliver 3, .read "B" 5]).delivered_at = some 2 :=
  (lifecycle_set_once
    { recipient_id := "B", created_at := 0, delivered_at := some 2, read_at := none }
    [.deliver 3, .read "B" 5] (by decide)).2.1 2 rfl

/-- Claim C6: in every reachable registry state each user holds at most
`MAX_CONNECTIONS_PER_USER = 5` sockets, and an attach for a user already
at the cap is refused with close reason "Too many connections" leaving
the registry (both maps) unchanged. -/
theorem connection_cap (r : Registry) (h : Reachable r) :
    (∀ u, (r.active u).length ≤ MAX_CONNECTIONS_PER_USER) ∧
    (∀ u s, MAX_CONNECTIONS_PER_USER ≤ (r.active u).length →
      r.attach u s = (.refused "Too many connections", r)) := by
  refine ⟨registry_cap_of_reachable r h, ?_⟩
  intro u s hlen
  unfold Registry.attach
  rw [if_pos hlen]

/-- Witness for C6: a reachable registry whose user `u1` holds five
sockets refuses a sixth attach and is left unchanged. -/
theorem connection_cap_witness :
    Registry.attach reg5 "u1" 9 = (.refused "Too many connections", reg5) :=
  (connection_cap reg5 reg5_reachable).2 "u1" 9 (by decide)

/-- Claim C1, counterexample: group `["A", "B"]`, sender `A`, member `B`
reported online by presence but with no socket in this registry — `B`
is neither delivered the frame nor queued a pointer (the broadcast's
offline result is discarded), so a recipient is silently skipped. -/
theorem group_member_silently_skipped :
    ("B" ∈ (["A", "B"] : List UserId)) ∧ ("B" : UserId) ≠ "A" ∧
    (handle_group "A" Registry.empty (fun _ => true) (fun _ => true)
        ["A", "B"] (some "g") "hi" "text" "m" "t").delivered_to = [] ∧
    (handle_group "A" Registry.empty (fun _ => true) (fun _ => true)
        ["A", "B"] (some "g") "hi" "text" "m" "t").queued = [] := by
  refine ⟨by decide, by decide, ?_, ?_⟩ <;> rfl

/-- Claim C1 (amended): every member the presence partition reports
offline (other than the sender) gets a `{message_id, kind: group,
group_id}` pointer queued; a member reported online is delivered only
if it has a live local socket that accepts the frame, and a member
reported online with no accepting local socket is neither delivered nor
queued. -/
theorem group_fanout (sender : UserId) (r : Registry) (ok : SocketId → Bool)
    (presence : UserId → Bool) (member_ids : List UserId)
    (gid content mt mid ts : String)
    (hg : gid ≠ "") (hc : content ≠ "") (hmem : sender ∈ member_ids)
    (hnd : member_ids.Nodup) :
    (∀ u ∈ member_ids, u ≠ sender → presence u = false →
      (u, ({ message_id := mid, kind := "group", group_id := some gid } : Pointer)) ∈
        (handle_group sender r ok presence member_ids (some gid) content mt mid ts).queued) ∧
    (∀ u ∈ member_ids, u ≠ sender → presence u = true → (r.active u).any ok = false →
      u ∉ (handle_group sender r ok presence member_ids (some gid) content mt mid ts).delivered_to ∧
      ∀ p, (u, p) ∉
        (handle_group sender r ok presence member_ids (some gid) content mt mid ts).queued) := by
  have hout : (handle_group sender r ok presence member_ids (some gid) content mt mid ts).queued =
      ((member_ids.filter fun u => !presence u).filter (fun u => u ≠ sender)).map
        (fun u => (u, { message_id := mid, kind := "group", group_id := some gid })) := by
    unfold handle_group
    rw [if_neg (by simp [falsy, hg]), if_neg hc, if_neg (by simp [hmem])]
    simp [get_online_users_from_list_eq]
  have hdel : (handle_group sender r ok presence member_ids (some gid) content mt mid ts).delivered_to =
      (member_ids.filter presence).filter
        (fun u => !(decide ((some sender : Option UserId) = some u)) && (r.active u).any ok) := by
    unfold handle_group
    rw [if_neg (by simp [falsy, hg]), if_neg hc, if_neg (by simp [hmem])]
    simp only [get_online_users_from_list_eq]
    exact broadcast_delivered_eq ok _ (some sender) (member_ids.filter presence) r
      (hnd.filter presence)
  constructor
  · intro u hu hne hoff
    rw [hout]
    apply List.mem_map.mpr
    refine ⟨u, ?_, rfl⟩
    apply List.mem_filter.mpr
    refine ⟨List.mem_filter.mpr ⟨hu, by simp [hoff]⟩, by simp [hne]⟩
  · intro u hu hne hon hany
    constructor
    · rw [hdel]
      intro hcon
      have := (List.mem_filter.mp hcon).2
      rw [hany] at this
      simp at this
    · intro p hcon
      rw [hout] at hcon
      obtain ⟨v, hv, hvp⟩ := List.mem_map.mp hcon
      have hvu : v = u := congrArg Prod.fst hvp
      rw [hvu] at hv
      have := (List.mem_filter.mp (List.mem_filter.mp hv).1).2
      rw [hon] at this
      simp at this

/-- Witness for C1 (amended): sender `A`, members `["A", "B"]`, `B`
presence-offline — the group pointer is queued for `B`. -/
theorem group_fanout_witness :
    ("B", ({ message_id := "m", kind := "group", group_id := some "g" } : Pointer)) ∈
      (handle_group "A" Registry.empty (fun _ => true) (fun u => decide (u = "A"))
        ["A", "B"] (some "g") "hi" "text" "m" "t").queued :=
  (group_fanout "A" Registry.empty (fun _ => true) (fun u => decide (u = "A"))
    ["A", "B"] "g" "hi" "text" "m" "t" (by decide) (by decide) (by decide)
    (by decide)).1 "B" (by decide) (by decide) (by decide)

/-- Claim C7, counterexample: one member (`B`) is presence-online but
has no local socket; the claim predicts
`message.ack{delivered: true, queued: false, delivered_count: 1}` from
`len(online) = 1`, but the code acks `delivered: false` with the
`delivered_count` key omitted. -/
theorem group_ack_counts_local_deliveries_only :
    (handle_group "A" Registry.empty (fun _ => true) (fun _ => true)
        ["A", "B"] (some "g") "hi" "text" "m" "t").toSender =
      [.ack "m" false false none] ∧
    ([Frame.ack "m" false false none] ≠ [Frame.ack "m" true false (some 1)]) := by
  constructor
  · rfl
  · decide

/-- Claim C7 (amended): the group-send ack reports
`delivered = (delivered_to not empty)`, `queued = false` and
`delivered_count = len(delivered_to)` (the key omitted when zero),
where `delivered_to` is the list of members other than the sender that
the presence partition reported online and that had a local socket
accepting the frame. -/
theorem group_ack (sender : UserId) (r : Registry) (ok : SocketId → Bool)
    (presence : UserId → Bool) (member_ids : List UserId)
    (gid content mt mid ts : String)
    (hg : gid ≠ "") (hc : content ≠ "") (hmem : sender ∈ member_ids)
    (hnd : member_ids.Nodup) :
    (handle_group sender r ok presence member_ids (some gid) content mt mid ts).delivered_to =
      (member_ids.filter presence).filter
        (fun u => !(decide ((some sender : Option UserId) = some u)) && (r.active u).any ok) ∧
    (handle_group sender r ok presence member_ids (some gid) content mt mid ts).toSender =
      [.ack mid
        (decide (0 < (handle_group sender r ok presence member_ids
          (some gid) content mt mid ts).delivered_to.length))
        false
        (if (handle_group sender r ok presence member_ids
              (some gid) content mt mid ts).delivered_to.length = 0 then none
         else some (handle_group sender r ok presence member_ids
              (some gid) content mt mid ts).delivered_to.length)] := by
  constructor
  · unfold handle_group
    rw [if_neg (by simp [falsy, hg]), if_neg hc, if_neg (by simp [hmem])]
    simp only [get_online_users_from_list_eq]
    exact broadcast_delivered_eq ok _ (some sender) (member_ids.filter presence) r
      (hnd.filter presence)
  · unfold handle_group
    rw [if_neg (by simp [falsy, hg]), if_neg hc, if_neg (by simp [hmem])]

/-- Witness for C7 (amended) at the concrete input of the
counterexample scenario. -/
theorem group_ack_witness :
    (handle_group "A" Registry.empty (fun _ => true) (fun _ => true)
        ["A", "B"] (some "g") "hi" "text" "m" "t").toSender =
      [.ack "m" false false none] := by
  rw [(group_ack "A" Registry.empty (fun _ => true) (fun _ => true)
    ["A", "B"] "g" "hi" "text" "m" "t" (by decide) (by decide) (by decide)
    (by decide)).2]
  rfl

end ChatServer
